import Mathlib

/-!
Verification of the MESILSAN inventory-reconciliation core (`app/routes.py`).

Shallow embedding: each relevant Flask endpoint is translated into a pure
Lean function over an explicit database state `DB`.  Quantities are modelled
as rationals (`ℚ`): the Python code converts every quantity with `float(...)`
and the spec's numeric semantics is "decimal, no mid-calculation rounding",
so the claims under study do not hinge on binary floating-point rounding.
SQL row sets are modelled as lists; `SELECT ... WHERE k = ?` with `fetchone`
is `List.find?`, `SUM(...)` over a `WHERE` filter is a `List.sum` over a
`List.filter`, and `INSERT OR REPLACE` keyed on `numero_parte` removes the
old row and prepends the new one.  Python truthiness of a JSON field
(`if not data.get(f)`) is modelled as: a string is falsy iff empty, a
number is falsy iff zero.
-/

namespace MES

abbrev Qty := ℚ

/-- A row of `control_material_almacen` (the receipt/batch table), restricted
to the columns the modelled endpoints read or write.  `cantidad_recibida` is
`Option Qty` because the only receipt writer in the sources,
`guardar_control_almacen` (routes.py:1255), does not list that column in its
`INSERT`, so the column keeps its SQL `NULL` default (`none`) on every row it
creates; `forzar_actualizacion_inventario` (routes.py:2477) nevertheless
reads it via `SUM(cantidad_recibida)`. -/
structure AlmacenRow where
  id : Nat
  codigo_material_recibido : String
  numero_parte : String
  cantidad_actual : Qty
  cantidad_recibida : Option Qty
  deriving Repr, DecidableEq

/-- A row of `control_material_salida` (the issuance ledger), columns as in
the `INSERT` at routes.py:2407.  The `guardar_salida_lote` insert
(routes.py:2107) omits `fecha_registro`, modelled as the empty string. -/
structure SalidaRow where
  codigo_material_recibido : String
  numero_lote : String
  modelo : String
  depto_salida : String
  proceso_salida : String
  cantidad_salida : Qty
  fecha_salida : String
  fecha_registro : String
  especificacion_material : String
  deriving Repr, DecidableEq

/-- A row of the (distinct) table `control_material`, the target of the
`UPDATE` in `guardar_salida_lote` (routes.py:2103). -/
structure ControlMaterialRow where
  codigo_material_recibido : String
  cantidad_actual : Qty
  deriving Repr, DecidableEq

/-- A row of `inventario_general` (the materialized aggregate), columns as in
the `INSERT OR REPLACE` at routes.py:2498.  `fecha_actualizacion` is a
timestamp in seconds (`datetime('now')` always writes the parseable
`%Y-%m-%d %H:%M:%S` shape, so it is modelled as the parsed instant). -/
structure InventarioRow where
  numero_parte : String
  cantidad_entradas : Qty
  cantidad_salidas : Qty
  cantidad_total : Qty
  fecha_actualizacion : Int
  deriving Repr, DecidableEq

/-- The database state: the four tables the modelled endpoints touch. -/
structure DB where
  control_material_almacen : List AlmacenRow
  control_material_salida : List SalidaRow
  control_material : List ControlMaterialRow
  inventario_general : List InventarioRow
  deriving Repr, DecidableEq

/-- `SELECT ... FROM control_material_almacen WHERE codigo_material_recibido = ?`
with `fetchone` (routes.py:2361, 2088). -/
def almacenFind (db : DB) (codigo : String) : Option AlmacenRow :=
  db.control_material_almacen.find? (fun r => r.codigo_material_recibido == codigo)

/-- `SELECT COALESCE(SUM(cantidad_salida), 0) FROM control_material_salida
WHERE codigo_material_recibido = ?` (routes.py:2377): total previously
issued against one batch code. -/
def totalSalidasCodigo (db : DB) (codigo : String) : Qty :=
  ((db.control_material_salida.filter
      (fun s => s.codigo_material_recibido == codigo)).map
    (fun s => s.cantidad_salida)).sum

/-- The JSON body of a `POST /procesar_salida_material` or
`POST /guardar_salida_lote` request (the fields both handlers read). -/
structure SalidaRequest where
  codigo_material_recibido : String
  cantidad_salida : Qty
  numero_lote : String
  modelo : String
  depto_salida : String
  proceso_salida : String
  fecha_salida : String
  especificacion_material : String
  deriving Repr, DecidableEq

/-- Outcome of `procesar_salida_material`: the JSON response shape. -/
inductive SalidaResult where
  | success (nueva_cantidad_disponible : Qty) (numero_parte : String)
  | error (status : Nat) (msg : String)
  deriving Repr, DecidableEq

def SalidaResult.isError : SalidaResult → Bool
  | .success _ _ => false
  | .error _ _ => true

/-- `POST /procesar_salida_material` (routes.py:2326-2460), the transactional
foreground part: required-field check (Python truthiness: empty string /
zero are missing), positivity check, batch lookup, live batch-remaining
computation, over-issuance check, and on success the append of one
`control_material_salida` row.  `fecha_registro` is `datetime.now()`
(routes.py:2405), passed in as a parameter.  The background aggregate update
spawned after the commit is modelled separately
(`procesar_salida_con_background`). -/
def procesar_salida_material (db : DB) (fecha_registro : String)
    (req : SalidaRequest) : SalidaResult × DB :=
  if req.codigo_material_recibido = "" ∨ req.cantidad_salida = 0 then
    (.error 400 "Campo requerido", db)
  else if req.cantidad_salida ≤ 0 then
    (.error 400 "La cantidad de salida debe ser mayor a 0", db)
  else
    match almacenFind db req.codigo_material_recibido with
    | none => (.error 400 "Material no encontrado en almacen", db)
    | some material =>
      let cantidad_original := material.cantidad_actual
      let numero_parte := material.numero_parte
      let total_salidas_previas := totalSalidasCodigo db req.codigo_material_recibido
      let stock_disponible := cantidad_original - total_salidas_previas
      if stock_disponible ≤ 0 then
        (.error 400 "Sin stock disponible", db)
      else if stock_disponible < req.cantidad_salida then
        (.error 400 "Cantidad insuficiente", db)
      else
        let row : SalidaRow :=
          ⟨req.codigo_material_recibido, req.numero_lote, req.modelo,
           req.depto_salida, req.proceso_salida, req.cantidad_salida,
           req.fecha_salida, fecha_registro, req.especificacion_material⟩
        (.success (stock_disponible - req.cantidad_salida) numero_parte,
         ⟨db.control_material_almacen, db.control_material_salida ++ [row],
          db.control_material, db.inventario_general⟩)

/-- Outcome of `guardar_salida_lote`: the endpoint answers plain
`{'success': bool, ...}` JSON (no status code on validation failures). -/
inductive LoteResult where
  | success
  | error (msg : String)
  deriving Repr, DecidableEq

def LoteResult.isError : LoteResult → Bool
  | .success => false
  | .error _ => true

/-- `POST /guardar_salida_lote` (routes.py:2071-2124): missing-data check
(Python truthiness), batch lookup, the check `cantidad_salida >
cantidad_actual` against the raw row value (prior issuances are not
subtracted and non-positive quantities other than `0` pass), then an
`UPDATE` of the table `control_material` (not `control_material_almacen`)
and the append of one `control_material_salida` row. -/
def guardar_salida_lote (db : DB) (req : SalidaRequest) : LoteResult × DB :=
  if req.codigo_material_recibido = "" ∨ req.cantidad_salida = 0 then
    (.error "Faltan datos requeridos", db)
  else
    match almacenFind db req.codigo_material_recibido with
    | none => (.error "Codigo no encontrado en almacen", db)
    | some row =>
      let cantidad_actual := row.cantidad_actual
      if cantidad_actual < req.cantidad_salida then
        (.error "Cantidad de salida mayor a la disponible", db)
      else
        let nueva_cantidad := cantidad_actual - req.cantidad_salida
        let cm := db.control_material.map (fun r =>
          if r.codigo_material_recibido == req.codigo_material_recibido then
            ⟨r.codigo_material_recibido, nueva_cantidad⟩
          else r)
        let salida : SalidaRow :=
          ⟨req.codigo_material_recibido, req.numero_lote, req.modelo,
           req.depto_salida, req.proceso_salida, req.cantidad_salida,
           req.fecha_salida, "", req.especificacion_material⟩
        (.success,
         ⟨db.control_material_almacen, db.control_material_salida ++ [salida],
          cm, db.inventario_general⟩)

/-- `SUM(cantidad_recibida)` over the `control_material_almacen` rows of one
part (routes.py:2477-2482): SQL `SUM` skips `NULL` values, and the handler
coerces a `NULL` (all-`NULL` or empty) result to `0`, so the value is the
sum of the present (`some`) entries. -/
def totalEntradasParte (db : DB) (numero_parte : String) : Qty :=
  ((db.control_material_almacen.filter
      (fun r => r.numero_parte == numero_parte)).map
    (fun r => r.cantidad_recibida.getD 0)).sum

/-- `SUM(cantidad_salida)` over `control_material_salida JOIN
control_material_almacen ON codigo_material_recibido` restricted to one part
(routes.py:2485-2492): every (salida, almacen) pair matching the join
condition contributes the salida quantity. -/
def totalSalidasParte (db : DB) (numero_parte : String) : Qty :=
  (db.control_material_salida.map (fun s =>
      ((db.control_material_almacen.filter (fun a =>
          a.codigo_material_recibido == s.codigo_material_recibido ∧
          a.numero_parte == numero_parte)).map
        (fun _ => s.cantidad_salida)).sum)).sum

/-- `INSERT OR REPLACE INTO inventario_general` keyed on `numero_parte`:
the conflicting row (if any) is replaced. -/
def upsertInventario (rows : List InventarioRow) (row : InventarioRow) :
    List InventarioRow :=
  row :: rows.filter (fun r => ¬ r.numero_parte == row.numero_parte)

/-- `POST /forzar_actualizacion_inventario/<numero_parte>`
(routes.py:2462-2519): recompute the aggregate for one part from the event
tables and overwrite its `inventario_general` row, stamping
`datetime('now')` (the `now` parameter). -/
def forzar_actualizacion_inventario (db : DB) (numero_parte : String)
    (now : Int) : (Qty × Qty × Qty) × DB :=
  let total_entradas := totalEntradasParte db numero_parte
  let total_salidas := totalSalidasParte db numero_parte
  let cantidad_total_actual := total_entradas - total_salidas
  let row : InventarioRow :=
    ⟨numero_parte, total_entradas, total_salidas, cantidad_total_actual, now⟩
  ((total_entradas, total_salidas, cantidad_total_actual),
   ⟨db.control_material_almacen, db.control_material_salida,
    db.control_material, upsertInventario db.inventario_general row⟩)

/-- `SELECT ... FROM inventario_general WHERE numero_parte = ?` with
`fetchone` (routes.py:2593). -/
def invFind (db : DB) (numero_parte : String) : Option InventarioRow :=
  db.inventario_general.find? (fun r => r.numero_parte == numero_parte)

/-- Modelled from the spec: `actualizar_inventario_general_entrada` is
defined in `app/db.py`, which is not among the sources; §4.3 specifies the
incremental mode as `apply_delta(part, received_delta, 0)`: it "adds the
deltas to the existing AggregateBalance row (or creates it at zero baseline
if absent), and stamps `last_updated_at`". -/
def actualizar_inventario_general_entrada (db : DB) (numero_parte : String)
    (delta : Qty) (now : Int) : DB :=
  let row : InventarioRow :=
    match invFind db numero_parte with
    | some r =>
        ⟨numero_parte, r.cantidad_entradas + delta, r.cantidad_salidas,
         r.cantidad_total + delta, now⟩
    | none => ⟨numero_parte, delta, 0, delta, now⟩
  ⟨db.control_material_almacen, db.control_material_salida,
   db.control_material, upsertInventario db.inventario_general row⟩

/-- Modelled from the spec: `actualizar_inventario_general_salida` is
defined in `app/db.py`, which is not among the sources; §4.3 specifies the
incremental mode as `apply_delta(part, 0, issued_delta)`: it adds the issued
delta to the existing AggregateBalance row (or creates it at zero baseline
if absent) and stamps `last_updated_at`.  Per §4.3 it touches only the
AggregateBalance (`inventario_general`) table. -/
def actualizar_inventario_general_salida (db : DB) (numero_parte : String)
    (delta : Qty) (now : Int) : DB :=
  let row : InventarioRow :=
    match invFind db numero_parte with
    | some r =>
        ⟨numero_parte, r.cantidad_entradas, r.cantidad_salidas + delta,
         r.cantidad_total - delta, now⟩
    | none => ⟨numero_parte, 0, delta, -delta, now⟩
  ⟨db.control_material_almacen, db.control_material_salida,
   db.control_material, upsertInventario db.inventario_general row⟩

/-- Outcome of the fire-and-forget background update spawned at
routes.py:2436-2440: either the `actualizar_inventario_general_salida` call
completes, or it raises and the exception is swallowed by the `except`
at routes.py:2433 (only logged). -/
inductive BgOutcome where
  | completed
  | raised
  deriving Repr, DecidableEq

/-- `procesar_salida_material` followed by its background thread
(routes.py:2422-2440): the thread is spawned only after the commit and only
when `numero_parte` is non-empty, and it runs
`actualizar_inventario_general_salida(numero_parte, cantidad_salida)`; its
body is wrapped in `try/except`, so a raising outcome leaves the committed
state untouched.  The HTTP response is the first component of
`procesar_salida_material`, already fixed before the thread starts. -/
def procesar_salida_con_background (db : DB) (fecha_registro : String)
    (req : SalidaRequest) (now : Int) (bg : BgOutcome) : SalidaResult × DB :=
  let r := procesar_salida_material db fecha_registro req
  match r.1, bg with
  | .success _ numero_parte, .completed =>
      if numero_parte = "" then r
      else (r.1, actualizar_inventario_general_salida r.2 numero_parte
                   req.cantidad_salida now)
  | _, _ => r

/-- The JSON body of a `POST` to `guardar_control_almacen` (the fields the
handler reads that the model tracks; the remaining columns of the `INSERT`
are free-text metadata not involved in any claim). -/
structure EntradaRequest where
  codigo_material_original : String
  codigo_material : String
  cantidad_actual : Qty
  codigo_material_recibido : String
  numero_parte : String
  propiedad_material : String
  especificacion : String
  deriving Repr, DecidableEq

inductive EntradaResult where
  | success (id : Nat)
  | error (msg : String)
  deriving Repr, DecidableEq

/-- `POST /guardar_control_almacen` (routes.py:1240-1305): required-field
check on `codigo_material_original`, `INSERT INTO control_material_almacen`
— the column list at routes.py:1256-1262 contains `cantidad_actual` but NOT
`cantidad_recibida`, so the new row's `cantidad_recibida` is `none` — then,
when `numero_parte` is non-empty and the quantity positive, the incremental
aggregate update `actualizar_inventario_general_entrada`. -/
def guardar_control_almacen (db : DB) (req : EntradaRequest) (now : Int) :
    EntradaResult × DB :=
  if req.codigo_material_original = "" then
    (.error "Codigo de material original es requerido", db)
  else
    let row : AlmacenRow :=
      ⟨db.control_material_almacen.length, req.codigo_material_recibido,
       req.numero_parte, req.cantidad_actual, none⟩
    let db1 : DB :=
      ⟨db.control_material_almacen ++ [row], db.control_material_salida,
       db.control_material, db.inventario_general⟩
    let db2 :=
      if req.numero_parte ≠ "" ∧ 0 < req.cantidad_actual then
        actualizar_inventario_general_entrada db1 req.numero_parte
          req.cantidad_actual now
      else db1
    (.success row.id, db2)

/-- Outcome of `GET /verificar_estado_inventario` (routes.py:2579-2628):
HTTP 400 when `numero_parte` is missing, HTTP 404 when the part has no
`inventario_general` row, otherwise the freshness report. -/
inductive VerificarResult where
  | badRequest
  | notFound
  | ok (cantidad_total : Qty) (fecha_actualizacion : Int)
      (actualizado_recientemente : Bool)
  deriving Repr, DecidableEq

/-- Whether the endpoint reported the aggregate as recently updated. -/
def VerificarResult.reportsRecent : VerificarResult → Bool
  | .ok _ _ rec => rec
  | _ => false

/-- `GET /verificar_estado_inventario?numero_parte=...` (routes.py:2579):
look up the part's aggregate row; report `actualizado_recientemente` iff
`datetime.now() - fecha_actualizacion < timedelta(seconds=30)` (strict,
routes.py:2608); answer 404 when the row is absent.  `now` is the request
instant in seconds. -/
def verificar_estado_inventario (db : DB) (numero_parte : String)
    (now : Int) : VerificarResult :=
  if numero_parte = "" then .badRequest
  else
    match invFind db numero_parte with
    | some r =>
        .ok r.cantidad_total r.fecha_actualizacion
          (now - r.fecha_actualizacion < 30)
    | none => .notFound

/-! ### Batch sequence generation (`obtener_siguiente_secuencial`) -/

/-- Numeric value of a decimal digit character. -/
def dVal (c : Char) : Nat := c.toNat - 48

/-- The digit character for `d < 10`. -/
def dChar (d : Nat) : Char := Char.ofNat (48 + d)

/-- Value of an exactly-4-digit character list (the regex capture group
`(\d{4})`, read by `int(match.group(1))` at routes.py:1547). -/
def seqVal : List Char → Nat
  | [a, b, c, d] => 1000 * dVal a + 100 * dVal b + 10 * dVal c + dVal d
  | _ => 0

/-- The regex match at routes.py:1536/1544:
`^re.escape(codigo),fecha(\d{4})$` against a stored
`codigo_material_recibido`; returns the captured sequence when the string is
exactly the literal prefix `codigo ++ "," ++ fecha` followed by exactly four
digits.  (The SQL `LIKE 'codigo,fecha%'` prefilter at routes.py:1522-1527
only narrows the scanned rows to a superset of the regex matches — every
regex match has that literal prefix — so filtering all rows by the regex is
equivalent.) -/
def matchSeq (codigo fecha : String) (s : String) : Option Nat :=
  let p := (codigo ++ "," ++ fecha).data
  let l := s.data
  let rest := l.drop p.length
  if l.take p.length = p ∧ rest.length = 4 ∧ rest.all Char.isDigit then
    some (seqVal rest)
  else none

/-- The scan loop at routes.py:1535-1554: the highest sequence among the
rows matching the regex, starting from `0`. -/
def secuencialMasAlto (rows : List String) (codigo fecha : String) : Nat :=
  (rows.filterMap (matchSeq codigo fecha)).foldr max 0

/-- `siguiente_secuencial = secuencial_mas_alto + 1` (routes.py:1556). -/
def siguienteSecuencial (rows : List String) (codigo fecha : String) : Nat :=
  secuencialMasAlto rows codigo fecha + 1

/-- Python `f"{n:04d}"` (routes.py:1559): zero-pad to width 4; a number of
five or more digits prints all of its digits. -/
def formatSeq (n : Nat) : List Char :=
  if n < 10000 then
    [dChar (n / 1000), dChar (n / 100 % 10), dChar (n / 10 % 10),
     dChar (n % 10)]
  else Nat.toDigits 10 n

/-- `f"{codigo_material},{fecha_actual}{siguiente_secuencial:04d}"`
(routes.py:1559): the full generated `codigo_material_recibido` that the
caller commits before the next call. -/
def proximoCodigoCompleto (codigo fecha : String) (n : Nat) : String :=
  codigo ++ "," ++ fecha ++ ⟨formatSeq n⟩

/-- JSON answer of `GET /obtener_siguiente_secuencial` (the fields a caller
reads: HTTP status, `success`, `siguiente_secuencial`). -/
structure SecuencialResponse where
  status : Nat
  success : Bool
  siguiente_secuencial : Nat
  deriving Repr, DecidableEq

/-- Whether the handler's work after the parameter check raises: `.ok rows`
is a successful read of the `codigo_material_recibido` column of the
`LIKE`-matching `control_material_almacen` rows; `.failed` is any internal
exception (caught at routes.py:1577). -/
inductive DbRead where
  | ok (rows : List String)
  | failed
  deriving Repr, DecidableEq

/-- `GET /obtener_siguiente_secuencial?codigo_material=...`
(routes.py:1486-1585): missing `codigo_material` answers HTTP 400 with
`siguiente_secuencial: 1` (routes.py:1501-1506); an internal exception
answers HTTP 500 with `siguiente_secuencial: 1` (routes.py:1577-1585);
otherwise HTTP 200 with the computed next sequence. -/
def obtener_siguiente_secuencial (codigo_material fecha : String)
    (dbr : DbRead) : SecuencialResponse :=
  if codigo_material = "" then ⟨400, false, 1⟩
  else
    match dbr with
    | .failed => ⟨500, false, 1⟩
    | .ok rows => ⟨200, true, siguienteSecuencial rows codigo_material fecha⟩

/-! ### Derived views -/

/-- The `(cantidad_entradas, cantidad_salidas, cantidad_total)` triple of a
part's stored aggregate row, when present. -/
def invTriple (db : DB) (numero_parte : String) : Option (Qty × Qty × Qty) :=
  (invFind db numero_parte).map
    (fun r => (r.cantidad_entradas, r.cantidad_salidas, r.cantidad_total))

/-! ### Theorems -/

/-- C7: in `guardar_salida_lote` the decrement `UPDATE` targets the table
`control_material` while the validation read targets
`control_material_almacen`; consequently the whole
`control_material_almacen` table — in particular the `cantidad_actual` of
the row read for validation — is left unchanged by every call, successful
or not. -/
theorem guardar_salida_lote_frames_almacen (db : DB) (req : SalidaRequest) :
    (guardar_salida_lote db req).2.control_material_almacen =
      db.control_material_almacen := by
  unfold guardar_salida_lote
  split
  · rfl
  · split
    · rfl
    · dsimp only
      split
      · rfl
      · rfl

/-- C5: the HTTP response of `procesar_salida_material` and the committed
issuance ledger are fixed by the foreground transaction alone; whatever the
background aggregate update does — complete or raise (the exception is
caught and only logged) — neither the response nor the committed
`control_material_salida` ledger changes. -/
theorem background_failure_isolated (db : DB) (fecha_registro : String)
    (req : SalidaRequest) (now : Int) (bg : BgOutcome) :
    (procesar_salida_con_background db fecha_registro req now bg).1 =
      (procesar_salida_material db fecha_registro req).1 ∧
    (procesar_salida_con_background db fecha_registro req now bg).2.control_material_salida =
      (procesar_salida_material db fecha_registro req).2.control_material_salida := by
  unfold procesar_salida_con_background
  cases h : (procesar_salida_material db fecha_registro req).1 with
  | success q np =>
    cases bg with
    | completed =>
      by_cases hnp : np = ""
      · simp [h, hnp]
      · simp [h, hnp, actualizar_inventario_general_salida]
    | raised => simp [h]
  | error s m => cases bg <;> simp [h]

/-- C6: the force-recompute is idempotent on the stored quantities — running
`forzar_actualizacion_inventario` twice in a row, with no intervening
events, leaves the part's `(cantidad_entradas, cantidad_salidas,
cantidad_total)` triple identical to a single run (only the
`fecha_actualizacion` stamp may differ). -/
theorem forzar_actualizacion_inventario_idempotent (db : DB)
    (numero_parte : String) (t1 t2 : Int) :
    invTriple (forzar_actualizacion_inventario
        (forzar_actualizacion_inventario db numero_parte t1).2 numero_parte t2).2
      numero_parte =
    invTriple (forzar_actualizacion_inventario db numero_parte t1).2 numero_parte := by
  simp [forzar_actualizacion_inventario, invTriple, invFind, upsertInventario,
    totalEntradasParte, totalSalidasParte, List.find?]

/-- C9: for a requested part, `verificar_estado_inventario` reports the
aggregate as recently updated exactly when an `inventario_general` row
exists for the part and the elapsed time since its stored
`fecha_actualizacion` is strictly below 30 seconds; when no aggregate row
exists it answers a 404 not-found error instead of a freshness verdict. -/
theorem verificar_estado_inventario_freshness (db : DB) (numero_parte : String)
    (now : Int) (h : numero_parte ≠ "") :
    ((verificar_estado_inventario db numero_parte now).reportsRecent = true ↔
      ∃ r, invFind db numero_parte = some r ∧ now - r.fecha_actualizacion < 30) ∧
    (invFind db numero_parte = none →
      verificar_estado_inventario db numero_parte now = .notFound) := by
  unfold verificar_estado_inventario
  constructor
  · rw [if_neg h]
    cases hr : invFind db numero_parte with
    | some r => simp [VerificarResult.reportsRecent, hr]
    | none => simp [VerificarResult.reportsRecent, hr]
  · intro hr
    rw [if_neg h, hr]

/-- C9 witness: a part whose aggregate row was stamped 10 seconds before
`now` is reported recent, and a part with no aggregate row gets the 404. -/
theorem verificar_estado_inventario_freshness_witness :
    (verificar_estado_inventario ⟨[], [], [], [⟨"PN001", 100, 30, 70, 50⟩]⟩
        "PN001" 60).reportsRecent = true ∧
    verificar_estado_inventario ⟨[], [], [], []⟩ "PN001" 60 = .notFound := by
  constructor
  · exact (verificar_estado_inventario_freshness
      ⟨[], [], [], [⟨"PN001", 100, 30, 70, 50⟩]⟩ "PN001" 60 (by decide)).1.mpr
      ⟨⟨"PN001", 100, 30, 70, 50⟩, by decide, by decide⟩
  · exact (verificar_estado_inventario_freshness ⟨[], [], [], []⟩ "PN001" 60
      (by decide)).2 (by decide)

/-- C10: every failure path of `obtener_siguiente_secuencial` — missing
`codigo_material` (HTTP 400) as well as any internal exception (HTTP 500) —
still answers a body with `siguiente_secuencial = 1`, the very value a
successful call returns on a genuine first receipt of a `(codigo, fecha)`
pair (no stored code matches), so that field alone cannot distinguish an
error default from a true first sequence. -/
theorem obtener_siguiente_secuencial_error_default (codigo fecha : String)
    (rows : List String) (h : codigo ≠ "")
    (hrows : ∀ r ∈ rows, matchSeq codigo fecha r = none) :
    (obtener_siguiente_secuencial "" fecha (.ok rows)).siguiente_secuencial = 1 ∧
    (obtener_siguiente_secuencial "" fecha (.ok rows)).status = 400 ∧
    (obtener_siguiente_secuencial codigo fecha .failed).siguiente_secuencial = 1 ∧
    (obtener_siguiente_secuencial codigo fecha .failed).status = 500 ∧
    obtener_siguiente_secuencial codigo fecha (.ok rows) = ⟨200, true, 1⟩ := by
  refine ⟨rfl, rfl, ?_, ?_, ?_⟩
  · simp [obtener_siguiente_secuencial, h]
  · simp [obtener_siguiente_secuencial, h]
  · simp [obtener_siguiente_secuencial, h, siguienteSecuencial,
      secuencialMasAlto, List.filterMap_eq_nil_iff.mpr hrows]

/-- C10 witness: with `codigo = "X"` and no stored rows, the 400 body, the
500 body, and the genuine first-sequence 200 body all carry
`siguiente_secuencial = 1`. -/
theorem obtener_siguiente_secuencial_error_default_witness :
    (obtener_siguiente_secuencial "" "20250708" (.ok [])).siguiente_secuencial = 1 ∧
    (obtener_siguiente_secuencial "X" "20250708" .failed).siguiente_secuencial = 1 ∧
    obtener_siguiente_secuencial "X" "20250708" (.ok []) = ⟨200, true, 1⟩ := by
  have h := obtener_siguiente_secuencial_error_default "X" "20250708" []
    (by decide) (by intro r hr; cases hr)
  exact ⟨h.1, h.2.2.1, h.2.2.2.2⟩

/-- Appending one issuance row adds its quantity to the batch total of its
own `codigo_material_recibido` and leaves every other batch total
unchanged. -/
theorem totalSalidasCodigo_append (a : List AlmacenRow) (s : List SalidaRow)
    (c : List ControlMaterialRow) (i : List InventarioRow) (row : SalidaRow)
    (codigo : String) :
    totalSalidasCodigo ⟨a, s ++ [row], c, i⟩ codigo =
      totalSalidasCodigo ⟨a, s, c, i⟩ codigo +
        (if row.codigo_material_recibido = codigo then row.cantidad_salida
         else 0) := by
  simp only [totalSalidasCodigo, List.filter_append]
  by_cases hc : row.codigo_material_recibido = codigo
  · simp [hc]
  · simp [hc]

/-- Elimination form of a successful `procesar_salida_material` call: the
guards it passed and the exact shape of the committed state. -/
theorem procesar_salida_material_success_elim (db : DB) (fecha_registro : String)
    (req : SalidaRequest) (q : Qty) (np : String) (db' : DB)
    (h : procesar_salida_material db fecha_registro req =
      (.success q np, db')) :
    req.codigo_material_recibido ≠ "" ∧ 0 < req.cantidad_salida ∧
    ∃ m, almacenFind db req.codigo_material_recibido = some m ∧
      0 < m.cantidad_actual -
          totalSalidasCodigo db req.codigo_material_recibido ∧
      req.cantidad_salida ≤ m.cantidad_actual -
          totalSalidasCodigo db req.codigo_material_recibido ∧
      q = m.cantidad_actual -
          totalSalidasCodigo db req.codigo_material_recibido -
          req.cantidad_salida ∧
      np = m.numero_parte ∧
      db' = ⟨db.control_material_almacen,
        db.control_material_salida ++
          [⟨req.codigo_material_recibido, req.numero_lote, req.modelo,
            req.depto_salida, req.proceso_salida, req.cantidad_salida,
            req.fecha_salida, fecha_registro, req.especificacion_material⟩],
        db.control_material, db.inventario_general⟩ := by
  unfold procesar_salida_material at h
  split at h
  · simp at h
  · rename_i hreq
    split at h
    · simp at h
    · rename_i hpos
      split at h
      · simp at h
      · rename_i x material hfind
        dsimp only at h
        split at h
        · simp at h
        · rename_i hstock
          split at h
          · simp at h
          · rename_i hcant
            rw [Prod.mk.injEq, SalidaResult.success.injEq] at h
            refine ⟨fun hc => hreq (Or.inl hc), ?_, material, hfind, ?_, ?_,
              h.1.1.symm, h.1.2.symm, h.2.symm⟩
            · rcases lt_trichotomy req.cantidad_salida 0 with hlt | heq | hgt
              · exact absurd (le_of_lt hlt) hpos
              · exact absurd (Or.inr heq) hreq
              · exact hgt
            · linarith [not_le.mp hstock]
            · linarith [not_lt.mp hcant]

/-- The per-batch stock invariant: the total quantity recorded in the
issuance ledger against each batch code never exceeds the `cantidad_actual`
of that batch's (first matching) `control_material_almacen` row — the
quantity received for the batch, which no modelled endpoint ever
decrements. -/
def batchInvariant (db : DB) : Prop :=
  ∀ codigo m, almacenFind db codigo = some m →
    totalSalidasCodigo db codigo ≤ m.cantidad_actual

/-- C1: a `procesar_salida_material` issuance is accepted only when the
requested quantity is positive and at most the batch-level remaining stock
(the batch row's `cantidad_actual` minus the sum of the previously recorded
`cantidad_salida` rows for that `codigo_material_recibido`); consequently a
committed issuance preserves the invariant that the total issued against
each batch never exceeds the quantity received for it. -/
theorem procesar_salida_material_stock_guard (db : DB) (fecha_registro : String)
    (req : SalidaRequest) (q : Qty) (np : String) (db' : DB)
    (hpre : batchInvariant db)
    (h : procesar_salida_material db fecha_registro req =
      (.success q np, db')) :
    (0 < req.cantidad_salida ∧
      ∃ m, almacenFind db req.codigo_material_recibido = some m ∧
        req.cantidad_salida ≤ m.cantidad_actual -
          totalSalidasCodigo db req.codigo_material_recibido) ∧
    batchInvariant db' := by
  obtain ⟨hne, hpos, m, hfind, hstock, hle, hq, hnp, hdb'⟩ :=
    procesar_salida_material_success_elim db fecha_registro req q np db' h
  refine ⟨⟨hpos, m, hfind, hle⟩, ?_⟩
  intro codigo m' hfind'
  subst hdb'
  have hfind_eq : almacenFind db codigo = some m' := hfind'
  rw [show (⟨db.control_material_almacen,
      db.control_material_salida ++
        [⟨req.codigo_material_recibido, req.numero_lote, req.modelo,
          req.depto_salida, req.proceso_salida, req.cantidad_salida,
          req.fecha_salida, fecha_registro, req.especificacion_material⟩],
      db.control_material, db.inventario_general⟩ : DB) =
      ⟨db.control_material_almacen, db.control_material_salida ++ [_],
        db.control_material, db.inventario_general⟩ from rfl,
    totalSalidasCodigo_append]
  by_cases hc : req.codigo_material_recibido = codigo
  · subst hc
    have hm : m' = m := by
      rw [hfind_eq] at hfind
      exact Option.some.inj hfind
    subst hm
    simp only [eq_self_iff_true, if_true]
    linarith
  · simp only [if_neg hc, add_zero]
    exact hpre codigo m' hfind_eq

/-- C1 witness: from a batch `B1` received at quantity `100` with an empty
issuance ledger (the invariant holds trivially), issuing `30` succeeds. -/
theorem procesar_salida_material_stock_guard_witness :
    (0 < (30 : Qty) ∧
      ∃ m, almacenFind ⟨[⟨0, "B1", "PN001", 100, none⟩], [], [], []⟩ "B1" =
          some m ∧
        (30 : Qty) ≤ m.cantidad_actual -
          totalSalidasCodigo ⟨[⟨0, "B1", "PN001", 100, none⟩], [], [], []⟩
            "B1") ∧
    batchInvariant
      ⟨[⟨0, "B1", "PN001", 100, none⟩],
       [⟨"B1", "", "", "", "", 30, "", "t", ""⟩], [], []⟩ := by
  have hpre : batchInvariant ⟨[⟨0, "B1", "PN001", 100, none⟩], [], [], []⟩ := by
    intro codigo m hm
    simp only [almacenFind, List.find?] at hm
    split at hm
    · cases hm
      show (0 : Qty) ≤ 100
      norm_num
    · cases hm
  exact procesar_salida_material_stock_guard
    ⟨[⟨0, "B1", "PN001", 100, none⟩], [], [], []⟩ "t"
    ⟨"B1", 30, "", "", "", "", "", ""⟩ 70 "PN001"
    ⟨[⟨0, "B1", "PN001", 100, none⟩],
     [⟨"B1", "", "", "", "", 30, "", "t", ""⟩], [], []⟩ hpre
    (by norm_num [procesar_salida_material, almacenFind, totalSalidasCodigo,
          List.find?]
        decide)

/-- Exact failure characterization of `procesar_salida_material`: it fails
(and leaves the whole state unchanged) iff the batch code is missing, the
quantity is non-positive, no receipt row matches, or the quantity exceeds
the batch-level remaining stock. -/
theorem procesar_salida_material_error_characterization (db : DB)
    (fecha_registro : String) (req : SalidaRequest) :
    ((procesar_salida_material db fecha_registro req).1.isError = true ↔
      req.codigo_material_recibido = "" ∨ req.cantidad_salida ≤ 0 ∨
      almacenFind db req.codigo_material_recibido = none ∨
      ∃ m, almacenFind db req.codigo_material_recibido = some m ∧
        m.cantidad_actual -
          totalSalidasCodigo db req.codigo_material_recibido <
          req.cantidad_salida) ∧
    ((procesar_salida_material db fecha_registro req).1.isError = true →
      (procesar_salida_material db fecha_registro req).2 = db) := by
  by_cases h1 : req.codigo_material_recibido = "" ∨ req.cantidad_salida = 0
  · have hA : (procesar_salida_material db fecha_registro req).1.isError = true := by
      simp only [procesar_salida_material, if_pos h1, SalidaResult.isError]
    have hB : (procesar_salida_material db fecha_registro req).2 = db := by
      simp only [procesar_salida_material, if_pos h1]
    exact ⟨⟨fun _ => h1.elim Or.inl (fun h0 => Or.inr (Or.inl (le_of_eq h0))),
      fun _ => hA⟩, fun _ => hB⟩
  · push_neg at h1
    by_cases h2 : req.cantidad_salida ≤ 0
    · have hA : (procesar_salida_material db fecha_registro req).1.isError = true := by
        simp only [procesar_salida_material, if_neg (not_or.mpr h1), if_pos h2,
          SalidaResult.isError]
      have hB : (procesar_salida_material db fecha_registro req).2 = db := by
        simp only [procesar_salida_material, if_neg (not_or.mpr h1), if_pos h2]
      exact ⟨⟨fun _ => Or.inr (Or.inl h2), fun _ => hA⟩, fun _ => hB⟩
    · cases hfind : almacenFind db req.codigo_material_recibido with
      | none =>
        have hA : (procesar_salida_material db fecha_registro req).1.isError = true := by
          simp only [procesar_salida_material, if_neg (not_or.mpr h1), if_neg h2,
            hfind, SalidaResult.isError]
        have hB : (procesar_salida_material db fecha_registro req).2 = db := by
          simp only [procesar_salida_material, if_neg (not_or.mpr h1), if_neg h2, hfind]
        exact ⟨⟨fun _ => Or.inr (Or.inr (Or.inl rfl)), fun _ => hA⟩, fun _ => hB⟩
      | some m =>
        by_cases h3 : m.cantidad_actual -
            totalSalidasCodigo db req.codigo_material_recibido ≤ 0
        · have hA : (procesar_salida_material db fecha_registro req).1.isError = true := by
            simp only [procesar_salida_material, if_neg (not_or.mpr h1), if_neg h2,
              hfind, if_pos h3, SalidaResult.isError]
          have hB : (procesar_salida_material db fecha_registro req).2 = db := by
            simp only [procesar_salida_material, if_neg (not_or.mpr h1), if_neg h2,
              hfind, if_pos h3]
          refine ⟨⟨fun _ => Or.inr (Or.inr (Or.inr ⟨m, rfl, ?_⟩)), fun _ => hA⟩,
            fun _ => hB⟩
          have := not_le.mp h2
          linarith
        · by_cases h4 : m.cantidad_actual -
              totalSalidasCodigo db req.codigo_material_recibido <
              req.cantidad_salida
          · have hA : (procesar_salida_material db fecha_registro req).1.isError = true := by
              simp only [procesar_salida_material, if_neg (not_or.mpr h1), if_neg h2,
                hfind, if_neg h3, if_pos h4, SalidaResult.isError]
            have hB : (procesar_salida_material db fecha_registro req).2 = db := by
              simp only [procesar_salida_material, if_neg (not_or.mpr h1), if_neg h2,
                hfind, if_neg h3, if_pos h4]
            exact ⟨⟨fun _ => Or.inr (Or.inr (Or.inr ⟨m, rfl, h4⟩)), fun _ => hA⟩,
              fun _ => hB⟩
          · have hA : (procesar_salida_material db fecha_registro req).1.isError = false := by
              simp only [procesar_salida_material, if_neg (not_or.mpr h1), if_neg h2,
                hfind, if_neg h3, if_neg h4, SalidaResult.isError]
            rw [hA]
            refine ⟨⟨fun h => (nomatch h), fun hP => ?_⟩, fun h => (nomatch h)⟩
            exfalso
            rcases hP with hc | hq | hn | ⟨m2, hm2, hlt⟩
            · exact h1.1 hc
            · exact h2 hq
            · exact Option.noConfusion hn
            · obtain rfl := Option.some.inj hm2
              exact h4 hlt

/-- Exact failure characterization of `guardar_salida_lote`: it fails (and
leaves the whole state unchanged) iff an input is missing / falsy-zero, no
receipt row matches, or the quantity exceeds the row's raw
`cantidad_actual`.  Prior issuances are not subtracted and negative
quantities pass the check. -/
theorem guardar_salida_lote_error_characterization (db : DB)
    (req : SalidaRequest) :
    ((guardar_salida_lote db req).1.isError = true ↔
      req.codigo_material_recibido = "" ∨ req.cantidad_salida = 0 ∨
      almacenFind db req.codigo_material_recibido = none ∨
      ∃ m, almacenFind db req.codigo_material_recibido = some m ∧
        m.cantidad_actual < req.cantidad_salida) ∧
    ((guardar_salida_lote db req).1.isError = true →
      (guardar_salida_lote db req).2 = db) := by
  by_cases h1 : req.codigo_material_recibido = "" ∨ req.cantidad_salida = 0
  · have hA : (guardar_salida_lote db req).1.isError = true := by
      simp only [guardar_salida_lote, if_pos h1, LoteResult.isError]
    have hB : (guardar_salida_lote db req).2 = db := by
      simp only [guardar_salida_lote, if_pos h1]
    exact ⟨⟨fun _ => h1.elim Or.inl (fun h0 => Or.inr (Or.inl h0)), fun _ => hA⟩,
      fun _ => hB⟩
  · push_neg at h1
    cases hfind : almacenFind db req.codigo_material_recibido with
    | none =>
      have hA : (guardar_salida_lote db req).1.isError = true := by
        simp only [guardar_salida_lote, if_neg (not_or.mpr h1), hfind,
          LoteResult.isError]
      have hB : (guardar_salida_lote db req).2 = db := by
        simp only [guardar_salida_lote, if_neg (not_or.mpr h1), hfind]
      exact ⟨⟨fun _ => Or.inr (Or.inr (Or.inl rfl)), fun _ => hA⟩, fun _ => hB⟩
    | some m =>
      by_cases h2 : m.cantidad_actual < req.cantidad_salida
      · have hA : (guardar_salida_lote db req).1.isError = true := by
          simp only [guardar_salida_lote, if_neg (not_or.mpr h1), hfind,
            if_pos h2, LoteResult.isError]
        have hB : (guardar_salida_lote db req).2 = db := by
          simp only [guardar_salida_lote, if_neg (not_or.mpr h1), hfind, if_pos h2]
        exact ⟨⟨fun _ => Or.inr (Or.inr (Or.inr ⟨m, rfl, h2⟩)), fun _ => hA⟩,
          fun _ => hB⟩
      · have hA : (guardar_salida_lote db req).1.isError = false := by
          simp only [guardar_salida_lote, if_neg (not_or.mpr h1), hfind,
            if_neg h2, LoteResult.isError]
        rw [hA]
        refine ⟨⟨fun h => (nomatch h), fun hP => ?_⟩, fun h => (nomatch h)⟩
        exfalso
        rcases hP with hc | hq | hn | ⟨m2, hm2, hlt⟩
        · exact h1.1 hc
        · exact h1.2 hq
        · exact Option.noConfusion hn
        · obtain rfl := Option.some.inj hm2
          exact h2 hlt

/-- C3 counterexample: `guardar_salida_lote` accepts a request whose
`cantidad_salida` is `-5 ≤ 0` against batch `B1` (received quantity `100`)
and writes the issuance row — the claim requires every issuance request with
a non-positive quantity to fail on both endpoints with the ledger
unchanged. -/
theorem guardar_salida_lote_accepts_nonpositive :
    ((-5 : Qty) ≤ 0) ∧
    (guardar_salida_lote ⟨[⟨0, "B1", "PN001", 100, none⟩], [], [], []⟩
        ⟨"B1", -5, "", "", "", "", "", ""⟩).1 = .success ∧
    (guardar_salida_lote ⟨[⟨0, "B1", "PN001", 100, none⟩], [], [], []⟩
        ⟨"B1", -5, "", "", "", "", "", ""⟩).2.control_material_salida =
      [⟨"B1", "", "", "", "", -5, "", "", ""⟩] := by
  refine ⟨by norm_num, ?_, ?_⟩ <;>
    · norm_num [guardar_salida_lote, almacenFind, List.find?]
      decide

/-- C3 (amended): an issuance request fails, leaving the
`control_material_salida` ledger unchanged, precisely under these
conditions — for `procesar_salida_material`: a missing/falsy required field
(empty batch code or zero quantity), a non-positive quantity, no matching
receipt row, or a quantity exceeding the batch-level remaining stock
(`cantidad_actual` minus prior issuances); for `guardar_salida_lote`: a
missing/falsy required field, no matching receipt row, or a quantity
exceeding the row's raw `cantidad_actual` (prior issuances are NOT
subtracted, and negative quantities are accepted).  In every failure case
no issuance row is written. -/
theorem salida_endpoints_failure_characterization (db : DB)
    (fecha_registro : String) (req : SalidaRequest) :
    ((procesar_salida_material db fecha_registro req).1.isError = true ↔
      req.codigo_material_recibido = "" ∨ req.cantidad_salida ≤ 0 ∨
      almacenFind db req.codigo_material_recibido = none ∨
      ∃ m, almacenFind db req.codigo_material_recibido = some m ∧
        m.cantidad_actual -
          totalSalidasCodigo db req.codigo_material_recibido <
          req.cantidad_salida) ∧
    ((procesar_salida_material db fecha_registro req).1.isError = true →
      (procesar_salida_material db fecha_registro req).2.control_material_salida =
        db.control_material_salida) ∧
    ((guardar_salida_lote db req).1.isError = true ↔
      req.codigo_material_recibido = "" ∨ req.cantidad_salida = 0 ∨
      almacenFind db req.codigo_material_recibido = none ∨
      ∃ m, almacenFind db req.codigo_material_recibido = some m ∧
        m.cantidad_actual < req.cantidad_salida) ∧
    ((guardar_salida_lote db req).1.isError = true →
      (guardar_salida_lote db req).2.control_material_salida =
        db.control_material_salida) := by
  refine ⟨(procesar_salida_material_error_characterization db fecha_registro req).1,
    fun h => ?_,
    (guardar_salida_lote_error_characterization db req).1,
    fun h => ?_⟩
  · rw [(procesar_salida_material_error_characterization db fecha_registro req).2 h]
  · rw [(guardar_salida_lote_error_characterization db req).2 h]

/-- C3 (amended) witness: a request against an unknown batch code fails on
both endpoints and leaves the (empty) issuance ledger unchanged. -/
theorem salida_endpoints_failure_characterization_witness :
    (procesar_salida_material ⟨[], [], [], []⟩ "t"
        ⟨"B1", 5, "", "", "", "", "", ""⟩).2.control_material_salida = [] ∧
    (guardar_salida_lote ⟨[], [], [], []⟩
        ⟨"B1", 5, "", "", "", "", "", ""⟩).2.control_material_salida = [] := by
  have h := salida_endpoints_failure_characterization ⟨[], [], [], []⟩ "t"
    ⟨"B1", 5, "", "", "", "", "", ""⟩
  exact ⟨h.2.1 rfl, h.2.2.2 rfl⟩

/-- The claim's "sum of all received quantities for the part": the receipt
path `guardar_control_almacen` records the received quantity of a batch in
the `cantidad_actual` column (routes.py:1271), so this sums
`cantidad_actual` over the part's `control_material_almacen` rows. -/
def totalRecibidoParte (db : DB) (numero_parte : String) : Qty :=
  ((db.control_material_almacen.filter
      (fun r => r.numero_parte == numero_parte)).map
    (fun r => r.cantidad_actual)).sum

/-- C2 (code bug, evaluated at the failing input): after a single committed
receipt of quantity `100` for part `PN001` via `guardar_control_almacen`
and no issuances, `forzar_actualizacion_inventario` stores the aggregate
triple `(0, 0, 0)` — its `SUM(cantidad_recibida)` reads a column the
receipt path never writes (the receipt quantity lands in `cantidad_actual`)
— while the claim requires `cantidad_total = Σ received − Σ issued = 100`. -/
theorem forzar_actualizacion_ignores_received_quantities :
    totalRecibidoParte
        (guardar_control_almacen ⟨[], [], [], []⟩
          ⟨"ORIG1", "MAT1", 100, "PN001,202507080001", "PN001", "", ""⟩ 0).2
        "PN001" -
      totalSalidasParte
        (guardar_control_almacen ⟨[], [], [], []⟩
          ⟨"ORIG1", "MAT1", 100, "PN001,202507080001", "PN001", "", ""⟩ 0).2
        "PN001" = 100 ∧
    invTriple
        (forzar_actualizacion_inventario
          (guardar_control_almacen ⟨[], [], [], []⟩
            ⟨"ORIG1", "MAT1", 100, "PN001,202507080001", "PN001", "", ""⟩ 0).2
          "PN001" 10).2 "PN001" = some (0, 0, 0) ∧
    (0 : Qty) ≠ 100 := by
  refine ⟨?_, ?_, by norm_num⟩ <;>
    · simp [guardar_control_almacen, actualizar_inventario_general_entrada,
        forzar_actualizacion_inventario, totalRecibidoParte, totalSalidasParte,
        totalEntradasParte, upsertInventario, invTriple, invFind, List.find?]

/-! ### Sequence-generation lemmas -/

/-- Digit characters round-trip: for `d < 10`, `dChar d` is a digit whose
value is `d`. -/
theorem dChar_digit : ∀ d < 10, (dChar d).isDigit = true ∧ dVal (dChar d) = d := by
  decide

/-- Below `10000`, `formatSeq` is the four zero-padded digit characters. -/
theorem formatSeq_eq (n : Nat) (h : n < 10000) :
    formatSeq n = [dChar (n / 1000), dChar (n / 100 % 10), dChar (n / 10 % 10),
      dChar (n % 10)] := by
  simp [formatSeq, h]

/-- For `n < 10000` the generated full code
`codigo ++ "," ++ fecha ++ f"{n:04d}"` matches the scan regex and parses
back to `n`. -/
theorem matchSeq_proximo (codigo fecha : String) (n : Nat) (h : n < 10000) :
    matchSeq codigo fecha (proximoCodigoCompleto codigo fecha n) = some n := by
  have hdiv : n / 1000 < 10 := by omega
  have hd1 := dChar_digit (n / 1000) hdiv
  have hd2 := dChar_digit (n / 100 % 10) (Nat.mod_lt _ (by norm_num))
  have hd3 := dChar_digit (n / 10 % 10) (Nat.mod_lt _ (by norm_num))
  have hd4 := dChar_digit (n % 10) (Nat.mod_lt _ (by norm_num))
  have hdata : (proximoCodigoCompleto codigo fecha n).data =
      (codigo ++ "," ++ fecha).data ++ formatSeq n := by
    simp [proximoCodigoCompleto]
  unfold matchSeq
  simp only [hdata, List.take_left, List.drop_left]
  rw [if_pos]
  · rw [formatSeq_eq n h]
    simp only [seqVal, hd1.2, hd2.2, hd3.2, hd4.2]
    congr 1
    omega
  · refine ⟨trivial, ?_, ?_⟩
    · rw [formatSeq_eq n h]
      rfl
    · rw [formatSeq_eq n h]
      simp [List.all_cons, hd1.1, hd2.1, hd3.1, hd4.1]

/-- Prepending a row that matches the regex with value `n` turns the
highest found sequence into `max n` of the previous one. -/
theorem secuencialMasAlto_cons_match (rows : List String)
    (codigo fecha r : String) (n : Nat) (h : matchSeq codigo fecha r = some n) :
    secuencialMasAlto (r :: rows) codigo fecha =
      max n (secuencialMasAlto rows codigo fecha) := by
  simp [secuencialMasAlto, List.filterMap_cons, h]

/-- One generation step: while the returned sequence is still within the
4-digit range, committing the generated code and calling again yields the
successor. -/
theorem siguienteSecuencial_step (rows : List String) (codigo fecha : String)
    (h : siguienteSecuencial rows codigo fecha ≤ 9999) :
    siguienteSecuencial
        (proximoCodigoCompleto codigo fecha
          (siguienteSecuencial rows codigo fecha) :: rows) codigo fecha =
      siguienteSecuencial rows codigo fecha + 1 := by
  have hn : siguienteSecuencial rows codigo fecha < 10000 := by omega
  unfold siguienteSecuencial at hn ⊢
  rw [secuencialMasAlto_cons_match rows codigo fecha _ _
    (matchSeq_proximo codigo fecha _ hn)]
  omega

/-- With no matching row the next sequence is `1`. -/
theorem siguienteSecuencial_no_match (rows : List String)
    (codigo fecha : String) (h : ∀ r ∈ rows, matchSeq codigo fecha r = none) :
    siguienteSecuencial rows codigo fecha = 1 := by
  simp [siguienteSecuencial, secuencialMasAlto, List.filterMap_eq_nil_iff.mpr h]

/-- C4 counterexample: with a stored row at sequence `9999` for
`("C", 20250708)`, the call returns `10000`; after committing the generated
code `C,2025070810000` (five digits, so it no longer matches the 4-digit
regex), the next call returns `10000` again — successive calls with
intervening commits are NOT strictly increasing once the 4-digit range is
exhausted. -/
theorem secuencial_wrap_counterexample :
    siguienteSecuencial ["C,202507089999"] "C" "20250708" = 10000 ∧
    siguienteSecuencial
      (proximoCodigoCompleto "C" "20250708" 10000 :: ["C,202507089999"])
      "C" "20250708" = 10000 := by
  decide

/-- C4 (amended): `obtener_siguiente_secuencial` returns one more than the
highest 4-digit sequence among rows exactly matching
`codigo ++ "," ++ fecha ++ (\d{4})`, returning `1` when no row matches;
and successive calls with intervening commits of the generated code return
strictly increasing integers starting at `1` AS LONG AS the returned
sequence stays within the 4-digit range (`≤ 9999`); past it, the generated
5-digit suffix no longer matches the regex and the returned value stops
increasing (see the counterexample). -/
theorem obtener_siguiente_secuencial_spec (rows : List String)
    (codigo fecha : String) :
    siguienteSecuencial rows codigo fecha =
      secuencialMasAlto rows codigo fecha + 1 ∧
    ((∀ r ∈ rows, matchSeq codigo fecha r = none) →
      siguienteSecuencial rows codigo fecha = 1) ∧
    (siguienteSecuencial rows codigo fecha ≤ 9999 →
      siguienteSecuencial
          (proximoCodigoCompleto codigo fecha
            (siguienteSecuencial rows codigo fecha) :: rows) codigo fecha =
        siguienteSecuencial rows codigo fecha + 1) :=
  ⟨rfl, siguienteSecuencial_no_match rows codigo fecha,
    siguienteSecuencial_step rows codigo fecha⟩

/-- C4 (amended) witness: starting from no stored rows, the first call
returns `1` and, after committing the generated code `C,202507080001`, the
next call returns `2`. -/
theorem obtener_siguiente_secuencial_spec_witness :
    siguienteSecuencial [] "C" "20250708" = 1 ∧
    siguienteSecuencial [proximoCodigoCompleto "C" "20250708" 1]
      "C" "20250708" = 2 := by
  have h := obtener_siguiente_secuencial_spec [] "C" "20250708"
  have h1 : siguienteSecuencial [] "C" "20250708" = 1 :=
    h.2.1 (by intro r hr; cases hr)
  have h3 := h.2.2 (by rw [h1]; norm_num)
  rw [h1] at h3
  exact ⟨h1, h3⟩

end MES
